import Mathlib

/-!
Verification of the Sphinx configuration file `conf.py` of the
contracts-abi-specification repository.

The file is embedded shallowly: the values a statement can bind, the
expressions appearing on the right-hand sides, and the statement forms of
the file (plus the environment-reading and environment-mutating forms a
Python configuration file could in principle contain, so that idempotence
and environment-independence are meaningful statements rather than
artifacts of the modelling language).  The concrete statement list
`ConfPy.confStmts` transcribes `conf.py` line by line; `ConfPy.load`
evaluates it in a given external environment.
-/

namespace ConfPy

/-- The value forms occurring in `conf.py`: strings, booleans, lists of
strings, the intersphinx table (name to base URL and optional inventory
path), and the theme-option table (name to boolean). -/
inductive Value where
  | str (s : String)
  | bool (b : Bool)
  | strList (l : List String)
  | intersphinx (l : List (String × String × Option String))
  | boolMap (l : List (String × Bool))
  deriving DecidableEq

/-- Right-hand sides: literals, plus the environment reads a configuration
file could perform (environment variable, command-line argument, file
read).  `conf.py` only ever uses `lit`. -/
inductive Expr where
  | lit (v : Value)
  | getEnv (name : String)
  | argvAt (i : Nat)
  | readFile (path : String)
  deriving DecidableEq

/-- Statement forms: a module import, an assignment of an expression to a
name, an in-place mutation of a bound value (such as `list.append`), and a
mutation of the process environment.  `conf.py` contains only the first
two. -/
inductive Stmt where
  | pyImport (name : String)
  | assign (name : String) (e : Expr)
  | mutateCall (name : String) (e : Expr)
  | envSet (name val : String)
  deriving DecidableEq

/-- The external world a configuration file can observe or mutate:
environment variables, command-line arguments, and file contents. -/
structure Env where
  vars : String → Option String
  argv : List String
  files : String → Option String

/-- Evaluate an expression in an environment.  Literals never consult the
environment. -/
def evalExpr (w : Env) : Expr → Option Value
  | .lit v => some v
  | .getEnv n => (w.vars n).map Value.str
  | .argvAt i => (w.argv.get? i).map Value.str
  | .readFile p => (w.files p).map Value.str

/-- A configuration record: option names bound to values, in binding
order (Python dictionary semantics). -/
abbrev Record := List (String × Value)

/-- Bind a name: rebind in place when present, append when absent. -/
def setVar : Record → String → Value → Record
  | [], n, v => [(n, v)]
  | (k, w) :: rest, n, v =>
    if k = n then (n, v) :: rest else (k, w) :: setVar rest n v

/-- Look up a name in a record. -/
def lookupVar : Record → String → Option Value
  | [], _ => none
  | (k, v) :: rest, n => if k = n then some v else lookupVar rest n

/-- Mutate one environment variable of the world. -/
def envUpdate (w : Env) (n v : String) : Env :=
  { w with vars := fun k => if k = n then some v else w.vars k }

/-- Execute one statement: imports bind nothing; an assignment binds its
name when the right-hand side evaluates; a mutation call appends a string
to a bound string list; an environment write mutates the world. -/
def execStmt (w : Env) (ns : Record) : Stmt → Record × Env
  | .pyImport _ => (ns, w)
  | .assign n e =>
    match evalExpr w e with
    | some v => (setVar ns n v, w)
    | none => (ns, w)
  | .mutateCall n e =>
    match lookupVar ns n, evalExpr w e with
    | some (.strList l), some (.str s) => (setVar ns n (.strList (l ++ [s])), w)
    | _, _ => (ns, w)
  | .envSet n v => (ns, envUpdate w n v)

/-- Execute a statement list, threading the namespace and the world. -/
def runStmts (stmts : List Stmt) (w : Env) (ns : Record) : Record × Env :=
  match stmts with
  | [] => (ns, w)
  | s :: rest =>
    let p := execStmt w ns s
    runStmts rest p.2 p.1

/-- The statements of `conf.py`, in source order. -/
def confStmts : List Stmt := [
  .pyImport "sys",
  .pyImport "os",
  .assign "project" (.lit (.str "C++ Contracts Documentation")),
  .assign "copyright" (.lit (.str "2025, EFCS LLC")),
  .assign "author" (.lit (.str "Eric Fiselier")),
  .assign "release" (.lit (.str "1.0")),
  .assign "extensions" (.lit (.strList ["sphinx.ext.intersphinx", "sphinx.ext.todo"])),
  .assign "templates_path" (.lit (.strList ["_templates"])),
  .assign "exclude_patterns" (.lit (.strList ["_build", "Thumbs.db", ".DS_Store"])),
  .assign "pygments_style" (.lit (.str "friendly")),
  .assign "html_theme" (.lit (.str "haiku")),
  .assign "html_static_path" (.lit (.strList ["_static"])),
  .assign "html_theme_options" (.lit (.boolMap [("nosidebar", false)])),
  .assign "html_theme_path" (.lit (.strList ["_themes"])),
  .assign "html_show_sourcelink" (.lit (.bool true)),
  .assign "html_show_sphinx" (.lit (.bool true)),
  .assign "intersphinx_mapping" (.lit (.intersphinx [
      ("python", "https://docs.python.org/3/", none),
      ("llvm", "https://llvm.org/docs/", none)])),
  .assign "todo_include_todos" (.lit (.bool true))]

/-- Evaluate `conf.py` in a world: the resulting record and world. -/
def load (w : Env) : Record × Env := runStmts confStmts w []

/-- The configuration record `conf.py` produces. -/
def conf : Record := [
  ("project", .str "C++ Contracts Documentation"),
  ("copyright", .str "2025, EFCS LLC"),
  ("author", .str "Eric Fiselier"),
  ("release", .str "1.0"),
  ("extensions", .strList ["sphinx.ext.intersphinx", "sphinx.ext.todo"]),
  ("templates_path", .strList ["_templates"]),
  ("exclude_patterns", .strList ["_build", "Thumbs.db", ".DS_Store"]),
  ("pygments_style", .str "friendly"),
  ("html_theme", .str "haiku"),
  ("html_static_path", .strList ["_static"]),
  ("html_theme_options", .boolMap [("nosidebar", false)]),
  ("html_theme_path", .strList ["_themes"]),
  ("html_show_sourcelink", .bool true),
  ("html_show_sphinx", .bool true),
  ("intersphinx_mapping", .intersphinx [
      ("python", "https://docs.python.org/3/", none),
      ("llvm", "https://llvm.org/docs/", none)]),
  ("todo_include_todos", .bool true)]

/-- Number of enabled extensions in a record. -/
def extensionCount (r : Record) : Nat :=
  match lookupVar r "extensions" with
  | some (.strList l) => l.length
  | _ => 0

/-- One intersphinx entry is well-formed: non-empty base URL, and the
optional inventory component is none in this configuration. -/
def entryOk : String × String × Option String → Bool
  | (_, url, inv) => url.length != 0 && inv.isNone

/-- All intersphinx entries of a record are well-formed. -/
def intersphinxEntriesOk (r : Record) : Bool :=
  match lookupVar r "intersphinx_mapping" with
  | some (.intersphinx l) => l.all entryOk
  | _ => false

/-- The option names of `conf.py`, all recognized by Sphinx. -/
def recognizedOptions : List String := [
  "project", "copyright", "author", "release", "extensions",
  "templates_path", "exclude_patterns", "pygments_style", "html_theme",
  "html_static_path", "html_theme_options", "html_theme_path",
  "html_show_sourcelink", "html_show_sphinx", "intersphinx_mapping",
  "todo_include_todos"]

/-- A statement assigning a literal to a recognized option name. -/
def isLitAssign : Stmt → Bool
  | .assign n (.lit _) => recognizedOptions.contains n
  | _ => false

/-- The name a statement assigns, when it is an assignment. -/
def assignedName : Stmt → Option String
  | .assign n _ => some n
  | _ => none

/-- A statement that mutates a bound value or the environment. -/
def isMutation : Stmt → Bool
  | .mutateCall _ _ => true
  | .envSet _ _ => true
  | _ => false

/-- The character list `l` starts with the character list `pat`. -/
def beginsWith : List Char → List Char → Bool
  | _, [] => true
  | [], _ :: _ => false
  | c :: cs, d :: ds => c == d && beginsWith cs ds

/-- The character list `pat` occurs inside the character list `l`. -/
def containsChars : List Char → List Char → Bool
  | [], pat => beginsWith [] pat
  | l@(_ :: cs), pat => beginsWith l pat || containsChars cs pat

/-- A relative path: non-empty and not starting with a path separator. -/
def isRelPath (s : String) : Bool :=
  match s.data with
  | [] => false
  | c :: _ => c != '/'

/-- Option `n` of record `r` is a string list all of whose elements are
relative paths. -/
def pathListOk (r : Record) (n : String) : Bool :=
  match lookupVar r n with
  | some (.strList l) => l.all isRelPath
  | _ => false

/-- A value that is a plain boolean. -/
def isBoolValue : Value → Bool
  | .bool _ => true
  | _ => false

/-- A name mentioning the sidebar (contains the substring "sidebar"). -/
def mentionsSidebar (s : String) : Bool :=
  containsChars s.data "sidebar".data

/-- A string containing a glob wildcard character. -/
def hasGlobChar (s : String) : Bool :=
  s.data.any (fun c => c == '*' || c == '?' || c == '[' || c == ']')

/-- The exclude_patterns entries of a record are all glob-free. -/
def excludeGlobFree (r : Record) : Bool :=
  match lookupVar r "exclude_patterns" with
  | some (.strList l) => l.all (fun s => !(hasGlobChar s))
  | _ => false

/-- Claim C1: the `extensions` option is a list of exactly two string
identifiers, `sphinx.ext.intersphinx` then `sphinx.ext.todo`, in that
order. -/
theorem c1_extensions_exactly_two :
    lookupVar conf "extensions" =
      some (Value.strList ["sphinx.ext.intersphinx", "sphinx.ext.todo"]) ∧
    extensionCount conf = 2 := by
  decide

/-- Claim C2: every `intersphinx_mapping` entry pairs a non-empty base URL
with an optional inventory path; the two entries are `python` and `llvm`,
each with inventory component none. -/
theorem c2_intersphinx_entries :
    lookupVar conf "intersphinx_mapping" =
      some (Value.intersphinx [
        ("python", "https://docs.python.org/3/", none),
        ("llvm", "https://llvm.org/docs/", none)]) ∧
    intersphinxEntriesOk conf = true := by
  decide

/-- Claim C3: loading is idempotent.  Evaluating `conf.py` leaves the
external world unchanged, so a second evaluation, started from the world
the first one left behind, produces the identical record. -/
theorem c3_load_idempotent :
    ∀ w : Env, (load ((load w).2)).1 = (load w).1 ∧ (load w).2 = w :=
  fun _ => ⟨rfl, rfl⟩

/-- Claim C4, counterexample: not every statement of `conf.py` is a
literal assignment to a recognized option name — the file opens with the
statements `import sys` and `import os`. -/
theorem c4_counterexample_imports :
    confStmts.all isLitAssign = false := by
  decide

/-- Claim C4, amended: every statement of `conf.py` other than the two
module-import statements `import sys` and `import os` assigns a literal
(or a small literal mapping) to a recognized option name. -/
theorem c4_amended_only_imports_and_literal_assigns :
    confStmts.all (fun s =>
      isLitAssign s || decide (s = Stmt.pyImport "sys")
        || decide (s = Stmt.pyImport "os")) = true := by
  decide

/-- Claim C5: each element of the four path-valued options
(`templates_path`, `html_static_path`, `html_theme_path`,
`exclude_patterns`) is a relative path, hence resolvable from the
configuration file's own directory. -/
theorem c5_path_options_relative :
    (["templates_path", "html_static_path", "html_theme_path",
      "exclude_patterns"].all (pathListOk conf)) = true := by
  decide

/-- Claim C6, counterexample: no option of the record has a name
mentioning the sidebar, and the boolean-valued options of the record are
exactly `html_show_sourcelink`, `html_show_sphinx` and
`todo_include_todos` — so no show-sidebar boolean option is present in
the record. -/
theorem c6_counterexample_no_sidebar_flag :
    conf.filter (fun kv => mentionsSidebar kv.1) = [] ∧
    (conf.filter (fun kv => isBoolValue kv.2)).map Prod.fst =
      ["html_show_sourcelink", "html_show_sphinx", "todo_include_todos"] := by
  decide

/-- Claim C6, amended: the record contains two top-level boolean display
flags, `html_show_sourcelink` and `html_show_sphinx` (both true); sidebar
visibility is instead the boolean `nosidebar` entry (false) nested inside
the `html_theme_options` mapping, not a top-level option. -/
theorem c6_amended_two_flags_sidebar_nested :
    lookupVar conf "html_show_sourcelink" = some (Value.bool true) ∧
    lookupVar conf "html_show_sphinx" = some (Value.bool true) ∧
    lookupVar conf "html_theme_options" =
      some (Value.boolMap [("nosidebar", false)]) := by
  decide

set_option maxHeartbeats 2000000 in
/-- Claim C7: each option name is bound exactly once (the assigned names
are pairwise distinct) and no statement mutates a value or the
environment after binding. -/
theorem c7_single_binding_no_mutation :
    (confStmts.filterMap assignedName).Nodup ∧
    confStmts.all (fun s => !(isMutation s)) = true := by
  decide

set_option maxHeartbeats 2000000 in
/-- Claim C8: the record is a closed-form constant independent of the
environment: evaluation in any world yields exactly `conf`, so any two
evaluations under different environments agree. -/
theorem c8_environment_independent :
    ∀ w1 w2 : Env, (load w1).1 = conf ∧ (load w1).1 = (load w2).1 :=
  fun _ _ => ⟨rfl, rfl⟩

/-- Claim C9: sidebar visibility is expressed inversely through the theme
options: `html_theme_options` is exactly the one-entry mapping binding
`nosidebar` to false, and no top-level option name mentions the
sidebar. -/
theorem c9_sidebar_inverted_in_theme_options :
    lookupVar conf "html_theme_options" =
      some (Value.boolMap [("nosidebar", false)]) ∧
    conf.all (fun kv => !(mentionsSidebar kv.1)) = true := by
  decide

/-- Claim C10: `exclude_patterns` is exactly the three literal names
`_build`, `Thumbs.db`, `.DS_Store` in that order, none containing a glob
wildcard character. -/
theorem c10_exclude_patterns_literal :
    lookupVar conf "exclude_patterns" =
      some (Value.strList ["_build", "Thumbs.db", ".DS_Store"]) ∧
    excludeGlobFree conf = true := by
  decide

end ConfPy
